import Mathlib

/-!
Verification of the pocket2fedi repository (`src/main.go`).

The program loads four credentials from the environment
(`loadConfigFromEnv`), fetches recent saves from the source service
(`getRecentPocketSaves`), and publishes each fetched item to the
destination server (`postToMastodon`) inside the `main` driver, with a
fixed 2-second sleep between publish attempts.

The embedding below translates `src/main.go` into pure Lean functions.
Network effects are made explicit: the source fetch is a function of the
HTTP response it receives, each publish attempt is a function of an
outcome oracle, and the driver produces a trace of observable events
together with a process exit code.
-/

deriving instance DecidableEq for Except

namespace Pocket2Fedi

/-- The `Config` struct of `src/main.go`: four opaque string credentials. -/
structure Config where
  pocketConsumerKey : String
  pocketAccessToken : String
  mastodonServer : String
  mastodonToken : String
deriving Repr, DecidableEq

/-- The `PocketItem` struct of `src/main.go`: a simplified item with a
title and a URL. -/
structure PocketItem where
  title : String
  url : String
deriving Repr, DecidableEq

/-- The process environment, as seen through Go's `os.Getenv`: a total map
from variable name to value, where an absent variable reads as the empty
string (Go's `os.Getenv` cannot distinguish absent from empty). -/
abbrev Env := String → String

/-- The error returned by `loadConfigFromEnv` in `src/main.go`
(`fmt.Errorf("missing required environment variables")`); the spec's
taxonomy calls it `MissingConfiguration`. -/
inductive ConfigError
  | missingConfiguration
deriving Repr, DecidableEq

/-- `loadConfigFromEnv` of `src/main.go`: read the four variables, fail if
any of them is empty, otherwise return them in a `Config`. -/
def loadConfigFromEnv (env : Env) : Except ConfigError Config :=
  let config : Config :=
    { pocketConsumerKey := env "POCKET_CONSUMER_KEY"
      pocketAccessToken := env "POCKET_ACCESS_TOKEN"
      mastodonServer := env "MASTODON_SERVER"
      mastodonToken := env "MASTODON_TOKEN" }
  if config.pocketConsumerKey = "" ∨ config.pocketAccessToken = "" ∨
      config.mastodonServer = "" ∨ config.mastodonToken = "" then
    .error .missingConfiguration
  else
    .ok config

/-- A concrete environment holding all four required values (the values of
`TestLoadConfigFromEnv_Success` in the repository's tests). -/
def envComplete : Env := fun k =>
  if k = "POCKET_CONSUMER_KEY" then "test_consumer_key"
  else if k = "POCKET_ACCESS_TOKEN" then "test_access_token"
  else if k = "MASTODON_SERVER" then "https://mastodon.example"
  else if k = "MASTODON_TOKEN" then "test_mastodon_token"
  else ""

/-- A concrete environment where only the consumer key is set (the
scenario of `TestLoadConfigFromEnv_MissingVariable`). -/
def envMissing : Env := fun k =>
  if k = "POCKET_CONSUMER_KEY" then "test_consumer_key" else ""

/-- The wire representation of an item's `status` field: the upstream
service serves it as a JSON string in some response variants and as a JSON
integer in others. -/
inductive RawStatus
  | str (s : String)
  | int (n : Int)
deriving Repr, DecidableEq

/-- A record of the keyed collection in the source response body, carrying
the fields `src/main.go` reads: a resolved title, a resolved URL and a
status. -/
structure RawItem where
  resolvedTitle : String
  resolvedURL : String
  status : RawStatus
deriving Repr, DecidableEq

/-- The HTTP response of the source retrieval endpoint: a status code and
the keyed item collection of the body (`list` maps item-id strings to item
records). When the status is not a success the body is irrelevant. -/
structure SourceResponse where
  httpStatus : Nat
  list : List (String × RawItem)
deriving Repr, DecidableEq

/-- A decoded item as exposed to `src/main.go` by the upstream client
library: the status decoded to an integer. -/
structure Item where
  resolvedTitle : String
  resolvedURL : String
  status : Int
deriving Repr, DecidableEq

/-- The fetch error taxonomy: client creation failure (wrapped as "failed
to create Pocket client"), a non-success HTTP status from the source
(`SourceUnavailable`, wrapped by `src/main.go` as "failed to retrieve
Pocket items"), and an undecodable body (`SourceResponseInvalid`). -/
inductive FetchError
  | clientCreationFailed
  | sourceUnavailable (status : Nat)
  | sourceResponseInvalid
deriving Repr, DecidableEq

/-- Accumulating decimal parser over a character list: consumes digits,
fails on any non-digit. -/
def parseNatAux : List Char → Nat → Option Nat
  | [], acc => some acc
  | c :: cs, acc =>
    if c.isDigit then parseNatAux cs (acc * 10 + (c.toNat - 48))
    else none

/-- Parse a string as a decimal integer with an optional leading minus
sign; fails on the empty string, a bare minus, or any non-digit. -/
def parseIntString (s : String) : Option Int :=
  match s.data with
  | [] => none
  | c :: cs =>
    if c = '-' then
      match cs with
      | [] => none
      | _ => (parseNatAux cs 0).map (fun n => -(n : Int))
    else (parseNatAux (c :: cs) 0).map (fun n => (n : Int))

/-- Modelled from the spec: decoding of the `status` field by the upstream
client library (a dependency, not part of this repository's sources). Per
the spec's note, either representation is accepted when it denotes an
integer: a JSON integer is taken as-is, a JSON string is parsed as an
integer (so `"0"` decodes to `0`); a non-numeric string is undecodable. -/
def decodeStatus : RawStatus → Option Int
  | .int n => some n
  | .str s => parseIntString s

/-- Decoding of one keyed item record, keeping the title and URL verbatim
and decoding the status. -/
def decodeItem (r : RawItem) : Option Item :=
  (decodeStatus r.status).map
    (fun v => { resolvedTitle := r.resolvedTitle
                resolvedURL := r.resolvedURL
                status := v })

/-- Decoding of the whole keyed collection; fails if any record's status
is undecodable. -/
def decodeItems : List (String × RawItem) → Option (List (String × Item))
  | [] => some []
  | p :: rest => do
    let it ← decodeItem p.2
    let tail ← decodeItems rest
    return (p.1, it) :: tail

/-- A success (2xx) HTTP status. -/
def is2xx (s : Nat) : Bool := 200 ≤ s && s < 300

/-- Modelled from the spec: the retrieval transport performed by the
upstream client library (`client.Retrieve`), which is a dependency and not
part of this repository's sources. A non-success HTTP status yields
`SourceUnavailable` with that status; an undecodable body yields
`SourceResponseInvalid`; otherwise the decoded keyed collection is
returned. -/
def retrieve (resp : SourceResponse) : Except FetchError (List (String × Item)) :=
  if is2xx resp.httpStatus then
    match decodeItems resp.list with
    | some items => .ok items
    | none => .error .sourceResponseInvalid
  else
    .error (.sourceUnavailable resp.httpStatus)

/-- The loop body of `getRecentPocketSaves` in `src/main.go`: iterate over
`output.List` and append a `PocketItem` with the item's resolved title and
URL whenever `item.Status == 0`. -/
def collectRecentSaves (output : List (String × Item)) : List PocketItem :=
  output.foldl
    (fun acc p =>
      if p.2.status = 0 then
        acc ++ [{ title := p.2.resolvedTitle, url := p.2.resolvedURL }]
      else acc)
    []

/-- `getRecentPocketSaves` of `src/main.go`, as a function of the source
HTTP response: retrieve, then keep only the unarchived (`Status == 0`)
items, each reduced to title and URL. On a retrieve error the error is
propagated and no items are produced. -/
def getRecentPocketSaves (resp : SourceResponse) : Except FetchError (List PocketItem) :=
  match retrieve resp with
  | .error e => .error e
  | .ok output => .ok (collectRecentSaves output)

/-- The filter-and-project form of the loop: active items in iteration
order, titles and URLs verbatim. -/
def activeSaves (output : List (String × Item)) : List PocketItem :=
  (output.filter (fun p => p.2.status = 0)).map
    (fun p => { title := p.2.resolvedTitle, url := p.2.resolvedURL })

/-- Observable events of one run of `main` in `src/main.go`, in program
order: a fatal exit on configuration failure, a logged fetch error, a
publish attempt (an invocation of `postToMastodon` with the server, token
and status text it receives), a logged per-item publish error, a sleep of
the given number of seconds, and the final "Finished processing" log. -/
inductive Event
  | fatalConfigExit
  | fetchErrorLogged
  | publishAttempt (server token status : String)
  | publishErrorLogged (title : String)
  | sleep (seconds : Nat)
  | finishedLogged
deriving Repr, DecidableEq

/-- Whether an event is an invocation of the publisher. -/
def Event.isPublishAttempt : Event → Bool
  | .publishAttempt _ _ _ => true
  | _ => false

/-- Whether an event is a sleep. -/
def Event.isSleep : Event → Bool
  | .sleep _ => true
  | _ => false

/-- The status text of a publish attempt, if the event is one. -/
def Event.publishedStatus : Event → Option String
  | .publishAttempt _ _ st => some st
  | _ => none

/-- The status text built by the driver for one item:
`fmt.Sprintf("New Pocket save: %s - %s", save.Title, save.URL)`. -/
def formatStatus (item : PocketItem) : String :=
  "New Pocket save: " ++ item.title ++ " - " ++ item.url

/-- The publish loop of `main` in `src/main.go`, as the event trace it
produces: for each item, in order, one publish attempt (whose outcome at
invocation index `i` is given by the oracle `pubOk`), a logged error when
the attempt failed, then an unconditional 2-second sleep. -/
def publishLoop (server token : String) (pubOk : Nat → Bool) :
    List PocketItem → Nat → List Event
  | [], _ => []
  | item :: rest, i =>
    .publishAttempt server token (formatStatus item) ::
      ((if pubOk i then [] else [.publishErrorLogged item.title]) ++
        .sleep 2 :: publishLoop server token pubOk rest (i + 1))

/-- The outcome of one process run: its event trace and its exit code. -/
structure RunResult where
  events : List Event
  exitCode : Nat
deriving Repr, DecidableEq

/-- `main` of `src/main.go` as a function of the environment, the source
HTTP response and the publish-outcome oracle: a configuration failure is a
fatal exit with code 1 (`log.Fatalf`); a fetch failure is logged and the
run returns normally (exit code 0); otherwise the publish loop runs over
the fetched items and the run ends normally with the final log line. -/
def mainRun (env : Env) (resp : SourceResponse) (pubOk : Nat → Bool) : RunResult :=
  match loadConfigFromEnv env with
  | .error _ => { events := [.fatalConfigExit], exitCode := 1 }
  | .ok config =>
    match getRecentPocketSaves resp with
    | .error _ => { events := [.fetchErrorLogged], exitCode := 0 }
    | .ok recentSaves =>
      { events :=
          publishLoop config.mastodonServer config.mastodonToken pubOk recentSaves 0 ++
            [.finishedLogged]
        exitCode := 0 }

/-- The alternating publish/sleep pattern the pacing claim describes: for
each item one publish attempt followed by one fixed 2-second sleep. -/
def pacedPattern (server token : String) : List PocketItem → List Event
  | [] => []
  | item :: rest =>
    .publishAttempt server token (formatStatus item) :: .sleep 2 ::
      pacedPattern server token rest

/-- The mock source response of `TestGetRecentPocketSaves_Success`: two
records, one with status `"0"` and one with status `"2"`. -/
def respOk : SourceResponse :=
  { httpStatus := 200
    list :=
      [("123", { resolvedTitle := "Test Article 1"
                 resolvedURL := "https://example.com/article1"
                 status := .str "0" }),
       ("456", { resolvedTitle := "Test Article 2"
                 resolvedURL := "https://example.com/article2"
                 status := .str "2" })] }

/-- The decoded form of `respOk.list`. -/
def decodedOk : List (String × Item) :=
  [("123", { resolvedTitle := "Test Article 1"
             resolvedURL := "https://example.com/article1"
             status := 0 }),
   ("456", { resolvedTitle := "Test Article 2"
             resolvedURL := "https://example.com/article2"
             status := 2 })]

end Pocket2Fedi

namespace Pocket2Fedi

theorem collectRecentSaves_go (output : List (String × Item))
    (acc : List PocketItem) :
    output.foldl
      (fun acc p =>
        if p.2.status = 0 then
          acc ++ [{ title := p.2.resolvedTitle, url := p.2.resolvedURL }]
        else acc)
      acc = acc ++ activeSaves output := by
  induction output generalizing acc with
  | nil => simp [activeSaves]
  | cons hd tl ih =>
    by_cases h : hd.2.status = 0 <;>
      simp [activeSaves, List.filter_cons, h, ih, List.append_assoc]

/-- The Go append-loop computes exactly the filter-and-project list. -/
theorem collectRecentSaves_eq (output : List (String × Item)) :
    collectRecentSaves output = activeSaves output := by
  simpa using collectRecentSaves_go output []

/-- C1: on a success response whose keyed collection decodes to `output`,
`getRecentPocketSaves` returns exactly the active (`status = 0`) items in
iteration order, titles and URLs verbatim; the number of returned items is
the number of active records, and with zero active records the result is
the empty list with no error. -/
theorem getRecentPocketSaves_filters (resp : SourceResponse)
    (output : List (String × Item))
    (h2 : is2xx resp.httpStatus = true)
    (hd : decodeItems resp.list = some output) :
    getRecentPocketSaves resp = .ok (activeSaves output) ∧
    (activeSaves output).length = output.countP (fun p => p.2.status = 0) ∧
    (output.countP (fun p => p.2.status = 0) = 0 →
      getRecentPocketSaves resp = .ok []) := by
  have hmain : getRecentPocketSaves resp = .ok (activeSaves output) := by
    simp [getRecentPocketSaves, retrieve, h2, hd, collectRecentSaves_eq]
  have hlen : (activeSaves output).length =
      output.countP (fun p => p.2.status = 0) := by
    simp [activeSaves, List.countP_eq_length_filter]
  refine ⟨hmain, hlen, fun hzero => ?_⟩
  rw [hmain]
  have : (activeSaves output).length = 0 := hlen.trans hzero
  rw [List.length_eq_zero.mp this]

/-- Witness for C1: on the test's mock response the fetcher returns the
single active item with its title and URL verbatim. -/
theorem getRecentPocketSaves_filters_witness :
    getRecentPocketSaves respOk =
      .ok [{ title := "Test Article 1", url := "https://example.com/article1" }] := by
  have h := getRecentPocketSaves_filters respOk decodedOk (by decide) (by decide)
  rw [h.1]
  decide

/-- C6: on any non-success (non-2xx) response from the source endpoint,
`getRecentPocketSaves` fails with `SourceUnavailable` carrying the status
code, and no items are produced alongside the error. -/
theorem getRecentPocketSaves_sourceUnavailable (resp : SourceResponse)
    (h : is2xx resp.httpStatus = false) :
    getRecentPocketSaves resp = .error (.sourceUnavailable resp.httpStatus) ∧
    ∀ items, getRecentPocketSaves resp ≠ .ok items := by
  have hmain : getRecentPocketSaves resp =
      .error (.sourceUnavailable resp.httpStatus) := by
    simp [getRecentPocketSaves, retrieve, h]
  exact ⟨hmain, fun items hcon => by simp [hmain] at hcon⟩

/-- Witness for C6: a 500 response yields `SourceUnavailable 500`. -/
theorem getRecentPocketSaves_sourceUnavailable_witness :
    getRecentPocketSaves { httpStatus := 500, list := [] } =
      .error (.sourceUnavailable 500) :=
  (getRecentPocketSaves_sourceUnavailable { httpStatus := 500, list := [] }
    (by decide)).1

/-- C8: the fetcher retains an item exactly when its status decodes to
zero, whether the wire representation is a string or an integer: a record
whose status decodes to `v` is kept iff `v = 0`, and both the string `"0"`
and the integer `0` decode to zero (while any status of non-zero value is
excluded). -/
theorem status_either_representation (t u key : String) (s : RawStatus)
    (v : Int) (hdec : decodeStatus s = some v) :
    getRecentPocketSaves { httpStatus := 200, list := [(key, ⟨t, u, s⟩)] } =
      .ok (if v = 0 then [{ title := t, url := u }] else []) ∧
    decodeStatus (.str "0") = some 0 ∧
    decodeStatus (.int 0) = some 0 := by
  refine ⟨?_, by decide, rfl⟩
  by_cases hv : v = 0 <;>
    simp [getRecentPocketSaves, retrieve, is2xx, decodeItems, decodeItem,
      hdec, collectRecentSaves, hv]

/-- Witness for C8: a single item with string status `"0"` is retained,
just like one with integer status `0`; with string status `"2"` it is
excluded. -/
theorem status_either_representation_witness :
    getRecentPocketSaves { httpStatus := 200, list := [("1", ⟨"A", "u", .str "0"⟩)] } =
      .ok [{ title := "A", url := "u" }] ∧
    getRecentPocketSaves { httpStatus := 200, list := [("1", ⟨"A", "u", .int 0⟩)] } =
      .ok [{ title := "A", url := "u" }] ∧
    getRecentPocketSaves { httpStatus := 200, list := [("1", ⟨"A", "u", .str "2"⟩)] } =
      .ok [] := by
  refine ⟨?_, ?_, ?_⟩
  · have h := (status_either_representation "A" "u" "1" (.str "0") 0 (by decide)).1
    simpa using h
  · have h := (status_either_representation "A" "u" "1" (.int 0) 0 rfl).1
    simpa using h
  · have h := (status_either_representation "A" "u" "1" (.str "2") 2 (by decide)).1
    simpa using h

/-- Helper: `loadConfigFromEnv` succeeds with the four environment values
whenever all four are non-empty. -/
theorem loadConfigFromEnv_ok_of_nonempty (env : Env)
    (h1 : env "POCKET_CONSUMER_KEY" ≠ "")
    (h2 : env "POCKET_ACCESS_TOKEN" ≠ "")
    (h3 : env "MASTODON_SERVER" ≠ "")
    (h4 : env "MASTODON_TOKEN" ≠ "") :
    loadConfigFromEnv env = .ok
      { pocketConsumerKey := env "POCKET_CONSUMER_KEY"
        pocketAccessToken := env "POCKET_ACCESS_TOKEN"
        mastodonServer := env "MASTODON_SERVER"
        mastodonToken := env "MASTODON_TOKEN" } := by
  simp [loadConfigFromEnv, h1, h2, h3, h4]

/-- C2: if all four required environment values are non-empty,
`loadConfigFromEnv` succeeds and the returned `Config` holds exactly those
four values unchanged. -/
theorem loadConfigFromEnv_success (env : Env)
    (h1 : env "POCKET_CONSUMER_KEY" ≠ "")
    (h2 : env "POCKET_ACCESS_TOKEN" ≠ "")
    (h3 : env "MASTODON_SERVER" ≠ "")
    (h4 : env "MASTODON_TOKEN" ≠ "") :
    loadConfigFromEnv env = .ok
      { pocketConsumerKey := env "POCKET_CONSUMER_KEY"
        pocketAccessToken := env "POCKET_ACCESS_TOKEN"
        mastodonServer := env "MASTODON_SERVER"
        mastodonToken := env "MASTODON_TOKEN" } :=
  loadConfigFromEnv_ok_of_nonempty env h1 h2 h3 h4

/-- Witness for C2: the complete test environment satisfies the
hypotheses, and the theorem yields the concrete loaded configuration. -/
theorem loadConfigFromEnv_success_witness :
    loadConfigFromEnv envComplete = .ok
      { pocketConsumerKey := "test_consumer_key"
        pocketAccessToken := "test_access_token"
        mastodonServer := "https://mastodon.example"
        mastodonToken := "test_mastodon_token" } :=
  loadConfigFromEnv_success envComplete
    (by decide) (by decide) (by decide) (by decide)

/-- C3: `loadConfigFromEnv` fails with the `MissingConfiguration` error
whenever at least one of the four required values is empty (absent
variables read as empty), and it succeeds exactly when all four are
non-empty. -/
theorem loadConfigFromEnv_missing (env : Env) :
    ((env "POCKET_CONSUMER_KEY" = "" ∨ env "POCKET_ACCESS_TOKEN" = "" ∨
        env "MASTODON_SERVER" = "" ∨ env "MASTODON_TOKEN" = "") →
      loadConfigFromEnv env = .error .missingConfiguration) ∧
    ((∃ c, loadConfigFromEnv env = .ok c) ↔
      (env "POCKET_CONSUMER_KEY" ≠ "" ∧ env "POCKET_ACCESS_TOKEN" ≠ "" ∧
        env "MASTODON_SERVER" ≠ "" ∧ env "MASTODON_TOKEN" ≠ "")) := by
  constructor
  · intro h
    simp [loadConfigFromEnv, h]
  · constructor
    · rintro ⟨c, hc⟩
      by_contra hcon
      rw [loadConfigFromEnv] at hc
      simp only [not_and_or, not_not] at hcon
      rcases hcon with h | h | h | h <;> simp [h] at hc
    · rintro ⟨h1, h2, h3, h4⟩
      exact ⟨_, loadConfigFromEnv_ok_of_nonempty env h1 h2 h3 h4⟩

/-- Witness for C3: in the environment where only the consumer key is set,
the theorem's first conjunct gives the `MissingConfiguration` failure. -/
theorem loadConfigFromEnv_missing_witness :
    loadConfigFromEnv envMissing = .error .missingConfiguration :=
  (loadConfigFromEnv_missing envMissing).1 (by decide)

@[simp] theorem isPublishAttempt_pub (s t st : String) :
    (Event.publishAttempt s t st).isPublishAttempt = true := rfl

@[simp] theorem isPublishAttempt_errLog (t : String) :
    (Event.publishErrorLogged t).isPublishAttempt = false := rfl

@[simp] theorem isPublishAttempt_sleepEv (n : Nat) :
    (Event.sleep n).isPublishAttempt = false := rfl

@[simp] theorem isPublishAttempt_finished :
    Event.finishedLogged.isPublishAttempt = false := rfl

@[simp] theorem isSleep_sleepEv (n : Nat) : (Event.sleep n).isSleep = true := rfl

@[simp] theorem isSleep_pub (s t st : String) :
    (Event.publishAttempt s t st).isSleep = false := rfl

@[simp] theorem isSleep_errLog (t : String) :
    (Event.publishErrorLogged t).isSleep = false := rfl

@[simp] theorem isSleep_finished : Event.finishedLogged.isSleep = false := rfl

@[simp] theorem publishedStatus_pub (s t st : String) :
    (Event.publishAttempt s t st).publishedStatus = some st := rfl

@[simp] theorem publishedStatus_errLog (t : String) :
    (Event.publishErrorLogged t).publishedStatus = none := rfl

@[simp] theorem publishedStatus_sleepEv (n : Nat) :
    (Event.sleep n).publishedStatus = none := rfl

@[simp] theorem publishedStatus_finished :
    Event.finishedLogged.publishedStatus = none := rfl

theorem publishLoop_publishedStatus (server token : String) (pubOk : Nat → Bool)
    (items : List PocketItem) (i0 : Nat) :
    (publishLoop server token pubOk items i0).filterMap Event.publishedStatus =
      items.map formatStatus := by
  induction items generalizing i0 with
  | nil => simp [publishLoop]
  | cons hd tl ih =>
    by_cases h : pubOk i0 <;>
      simp [publishLoop, h, ih, Event.publishedStatus]

theorem publishLoop_countP (server token : String) (pubOk : Nat → Bool)
    (items : List PocketItem) (i0 : Nat) :
    (publishLoop server token pubOk items i0).countP Event.isPublishAttempt =
      items.length := by
  induction items generalizing i0 with
  | nil => simp [publishLoop]
  | cons hd tl ih =>
    by_cases h : pubOk i0 <;>
      simp [publishLoop, h, ih, Event.isPublishAttempt, List.countP_cons,
        List.countP_append]

theorem publishLoop_error_logged (server token : String) (pubOk : Nat → Bool)
    (items : List PocketItem) (i0 : Nat) (i : Fin items.length)
    (h : pubOk (i0 + i.val) = false) :
    Event.publishErrorLogged (items.get i).title ∈
      publishLoop server token pubOk items i0 := by
  induction items generalizing i0 with
  | nil => exact absurd i.2 (by simp)
  | cons hd tl ih =>
    rcases i with ⟨iv, hi⟩
    cases iv with
    | zero =>
      simp only [Nat.add_zero] at h
      simp [publishLoop, h]
    | succ j =>
      have hj : j < tl.length := Nat.lt_of_succ_lt_succ hi
      have hrec := ih (i0 + 1) ⟨j, hj⟩
        (by simpa [Nat.add_assoc, Nat.add_comm 1 j] using h)
      have hg : (hd :: tl).get ⟨j + 1, hi⟩ = tl.get ⟨j, hj⟩ := rfl
      rw [hg]
      simp only [publishLoop]
      exact List.mem_cons_of_mem _
        (List.mem_append_right _ (List.mem_cons_of_mem _ hrec))

theorem publishLoop_filter_pattern (server token : String) (pubOk : Nat → Bool)
    (items : List PocketItem) (i0 : Nat) :
    (publishLoop server token pubOk items i0).filter
        (fun e => e.isPublishAttempt || e.isSleep) =
      pacedPattern server token items := by
  induction items generalizing i0 with
  | nil => simp [publishLoop, pacedPattern]
  | cons hd tl ih =>
    by_cases h : pubOk i0 <;>
      simp [publishLoop, pacedPattern, h, ih, List.filter_cons,
        List.filter_append]

theorem publishLoop_filter_sleep (server token : String) (pubOk : Nat → Bool)
    (items : List PocketItem) (i0 : Nat) :
    (publishLoop server token pubOk items i0).filter Event.isSleep =
      List.replicate items.length (Event.sleep 2) := by
  induction items generalizing i0 with
  | nil => simp [publishLoop]
  | cons hd tl ih =>
    by_cases h : pubOk i0 <;>
      simp [publishLoop, h, ih, List.filter_cons, List.filter_append,
        Event.isSleep, List.replicate_succ]

theorem publishLoop_attempt_mem (server token : String) (pubOk : Nat → Bool)
    (items : List PocketItem) (i0 : Nat) (s t st : String)
    (h : Event.publishAttempt s t st ∈ publishLoop server token pubOk items i0) :
    s = server ∧ t = token := by
  induction items generalizing i0 with
  | nil => simp [publishLoop] at h
  | cons hd tl ih =>
    by_cases hp : pubOk i0 <;> simp [publishLoop, hp] at h
    · rcases h with ⟨hs, ht, _⟩ | h
      · exact ⟨hs, ht⟩
      · exact ih (i0 + 1) h
    · rcases h with ⟨hs, ht, _⟩ | h
      · exact ⟨hs, ht⟩
      · exact ih (i0 + 1) h

/-- C4: when configuration and fetch succeed with `items`, the driver
invokes the publisher exactly once per item in order (the published
status texts are precisely the formatted items, so there are exactly
`items.length` attempts); a failed attempt is reported by a logged error
for that item but does not prevent the remaining attempts; and the run
terminates normally (exit code 0) for every outcome sequence, including
one where every publish fails. -/
theorem mainRun_publishes_each_item (env : Env) (resp : SourceResponse)
    (pubOk : Nat → Bool) (config : Config) (items : List PocketItem)
    (hc : loadConfigFromEnv env = .ok config)
    (hf : getRecentPocketSaves resp = .ok items) :
    (mainRun env resp pubOk).events.filterMap Event.publishedStatus =
      items.map formatStatus ∧
    (mainRun env resp pubOk).events.countP Event.isPublishAttempt =
      items.length ∧
    (mainRun env resp pubOk).exitCode = 0 ∧
    (∀ i : Fin items.length, pubOk i.val = false →
      Event.publishErrorLogged (items.get i).title ∈
        (mainRun env resp pubOk).events) := by
  have hev : (mainRun env resp pubOk).events =
      publishLoop config.mastodonServer config.mastodonToken pubOk items 0 ++
        [Event.finishedLogged] := by
    simp [mainRun, hc, hf]
  have hexit : (mainRun env resp pubOk).exitCode = 0 := by
    simp [mainRun, hc, hf]
  refine ⟨?_, ?_, hexit, ?_⟩
  · rw [hev]
    simp [List.filterMap_append, publishLoop_publishedStatus]
  · rw [hev]
    simp [List.countP_append, publishLoop_countP]
  · intro i hi
    rw [hev]
    exact List.mem_append_left _
      (publishLoop_error_logged _ _ _ _ 0 i (by simpa using hi))

/-- Witness for C4: with all publishes failing on the mock response, the
publisher is still invoked once (the single active item) and the run exits
normally. -/
theorem mainRun_publishes_each_item_witness :
    (mainRun envComplete respOk (fun _ => false)).events.countP
        Event.isPublishAttempt = 1 ∧
    (mainRun envComplete respOk (fun _ => false)).exitCode = 0 := by
  have h := mainRun_publishes_each_item envComplete respOk (fun _ => false)
    { pocketConsumerKey := "test_consumer_key"
      pocketAccessToken := "test_access_token"
      mastodonServer := "https://mastodon.example"
      mastodonToken := "test_mastodon_token" }
    [{ title := "Test Article 1", url := "https://example.com/article1" }]
    (by decide) (by decide)
  exact ⟨by simpa using h.2.1, h.2.2.1⟩

/-- C5: when configuration succeeds but the fetch fails, the driver logs
the fetch error and terminates without a single publish attempt: the event
trace is the logged fetch error alone. -/
theorem mainRun_fetch_failure_no_publish (env : Env) (resp : SourceResponse)
    (pubOk : Nat → Bool) (config : Config) (e : FetchError)
    (hc : loadConfigFromEnv env = .ok config)
    (hf : getRecentPocketSaves resp = .error e) :
    (mainRun env resp pubOk).events = [Event.fetchErrorLogged] ∧
    (mainRun env resp pubOk).events.countP Event.isPublishAttempt = 0 := by
  have hev : (mainRun env resp pubOk).events = [Event.fetchErrorLogged] := by
    simp [mainRun, hc, hf]
  exact ⟨hev, by rw [hev]; decide⟩

/-- Witness for C5: with a 500 source response the trace is the logged
fetch error and nothing else. -/
theorem mainRun_fetch_failure_no_publish_witness :
    (mainRun envComplete { httpStatus := 500, list := [] }
        (fun _ => false)).events = [Event.fetchErrorLogged] :=
  (mainRun_fetch_failure_no_publish envComplete
    { httpStatus := 500, list := [] } (fun _ => false)
    { pocketConsumerKey := "test_consumer_key"
      pocketAccessToken := "test_access_token"
      mastodonServer := "https://mastodon.example"
      mastodonToken := "test_mastodon_token" }
    (.sourceUnavailable 500) (by decide) (by decide)).1

/-- C7: pacing. When configuration and fetch succeed, the subtrace of
publish attempts and sleeps is the strictly alternating pattern publish,
sleep 2, publish, sleep 2, ... — so each pair of consecutive publish
invocations is separated by exactly one fixed 2-second delay; the sleeps
are exactly one 2-second sleep per item; and the sleep subtrace is the
same for every publish-outcome oracle, so no delay depends on the outcome
of the preceding publish. -/
theorem mainRun_pacing (env : Env) (resp : SourceResponse)
    (pubOk pubOk2 : Nat → Bool) (config : Config) (items : List PocketItem)
    (hc : loadConfigFromEnv env = .ok config)
    (hf : getRecentPocketSaves resp = .ok items) :
    (mainRun env resp pubOk).events.filter
        (fun e => e.isPublishAttempt || e.isSleep) =
      pacedPattern config.mastodonServer config.mastodonToken items ∧
    (mainRun env resp pubOk).events.filter Event.isSleep =
      List.replicate items.length (Event.sleep 2) ∧
    (mainRun env resp pubOk).events.filter Event.isSleep =
      (mainRun env resp pubOk2).events.filter Event.isSleep := by
  have hev : ∀ f : Nat → Bool, (mainRun env resp f).events =
      publishLoop config.mastodonServer config.mastodonToken f items 0 ++
        [Event.finishedLogged] := by
    intro f
    simp [mainRun, hc, hf]
  refine ⟨?_, ?_, ?_⟩
  · rw [hev pubOk]
    simp [List.filter_append, publishLoop_filter_pattern]
  · rw [hev pubOk]
    simp [List.filter_append, publishLoop_filter_sleep]
  · rw [hev pubOk, hev pubOk2]
    simp [List.filter_append, publishLoop_filter_sleep]

/-- Witness for C7: on a response with two active items and all publishes
failing, the publish/sleep subtrace alternates publish, sleep 2, publish,
sleep 2. -/
theorem mainRun_pacing_witness :
    (mainRun envComplete
        { httpStatus := 200
          list := [("1", ⟨"A", "u1", .str "0"⟩), ("2", ⟨"B", "u2", .int 0⟩)] }
        (fun _ => false)).events.filter
        (fun e => e.isPublishAttempt || e.isSleep) =
      [Event.publishAttempt "https://mastodon.example" "test_mastodon_token"
          (formatStatus ⟨"A", "u1"⟩),
        Event.sleep 2,
        Event.publishAttempt "https://mastodon.example" "test_mastodon_token"
          (formatStatus ⟨"B", "u2"⟩),
        Event.sleep 2] := by
  have h := mainRun_pacing envComplete
    { httpStatus := 200
      list := [("1", ⟨"A", "u1", .str "0"⟩), ("2", ⟨"B", "u2", .int 0⟩)] }
    (fun _ => false) (fun _ => true)
    { pocketConsumerKey := "test_consumer_key"
      pocketAccessToken := "test_access_token"
      mastodonServer := "https://mastodon.example"
      mastodonToken := "test_mastodon_token" }
    [⟨"A", "u1"⟩, ⟨"B", "u2"⟩] (by decide) (by decide)
  rw [h.1]
  decide

/-- C9: the configuration is immutable through the run: every publisher
invocation — in particular the one for the last item — receives exactly
the server and token of the `Config` returned by `loadConfigFromEnv`; in
this embedding fetching and publishing are pure functions of that value,
so no step can change any of its four fields. -/
theorem mainRun_config_immutable (env : Env) (resp : SourceResponse)
    (pubOk : Nat → Bool) (config : Config) (s t st : String)
    (hc : loadConfigFromEnv env = .ok config)
    (hmem : Event.publishAttempt s t st ∈ (mainRun env resp pubOk).events) :
    s = config.mastodonServer ∧ t = config.mastodonToken := by
  cases hf : getRecentPocketSaves resp with
  | error e =>
    have hev : (mainRun env resp pubOk).events = [Event.fetchErrorLogged] := by
      simp [mainRun, hc, hf]
    rw [hev] at hmem
    simp at hmem
  | ok items =>
    have hev : (mainRun env resp pubOk).events =
        publishLoop config.mastodonServer config.mastodonToken pubOk items 0 ++
          [Event.finishedLogged] := by
      simp [mainRun, hc, hf]
    rw [hev] at hmem
    rcases List.mem_append.mp hmem with h | h
    · exact publishLoop_attempt_mem _ _ _ _ _ _ _ _ h
    · simp at h

/-- Witness for C9: the concrete publish attempt in the mock run carries
exactly the loaded server and token. -/
theorem mainRun_config_immutable_witness :
    "https://mastodon.example" =
      ({ pocketConsumerKey := "test_consumer_key"
         pocketAccessToken := "test_access_token"
         mastodonServer := "https://mastodon.example"
         mastodonToken := "test_mastodon_token" } : Config).mastodonServer ∧
    "test_mastodon_token" =
      ({ pocketConsumerKey := "test_consumer_key"
         pocketAccessToken := "test_access_token"
         mastodonServer := "https://mastodon.example"
         mastodonToken := "test_mastodon_token" } : Config).mastodonToken :=
  mainRun_config_immutable envComplete respOk (fun _ => false)
    { pocketConsumerKey := "test_consumer_key"
      pocketAccessToken := "test_access_token"
      mastodonServer := "https://mastodon.example"
      mastodonToken := "test_mastodon_token" }
    "https://mastodon.example" "test_mastodon_token"
    (formatStatus { title := "Test Article 1"
                    url := "https://example.com/article1" })
    (by decide) (by decide)

/-- C10: only the configuration step can make the process exit non-zero:
a configuration failure is a fatal exit with code 1, and otherwise the run
exits 0 whatever the fetch response and publish outcomes — in particular a
fetch failure still ends in a normal (zero) exit. -/
theorem mainRun_exitCode (env : Env) (resp : SourceResponse)
    (pubOk : Nat → Bool) :
    (mainRun env resp pubOk).exitCode =
      (match loadConfigFromEnv env with
        | .ok _ => 0
        | .error _ => 1) := by
  cases hc : loadConfigFromEnv env with
  | error e => simp [mainRun, hc]
  | ok c =>
    cases hf : getRecentPocketSaves resp with
    | error e => simp [mainRun, hc, hf]
    | ok items => simp [mainRun, hc, hf]

end Pocket2Fedi
